import Mathlib

/-!
Shallow embedding of the finbertSagemaker repository (src/finbert.py and
src/finbert-invoke.py) and proofs of the claims about it.

External collaborators (the AWS IAM service reached through boto3, and the
SageMaker deploy/invoke API reached through the sagemaker SDK) are modelled
explicitly: unconstrained provider behaviour is passed in as an oracle
parameter, while the parts with fixed, documented semantics (the IAM role
store) are modelled as simple state.  All Python-side control flow (try and
except blocks, loops, indexing, dict.get defaults) is translated directly
from the source.
-/

namespace FinbertSM

/-- One entry of a provider response, as the Python code sees it: a dict in
which the code reads the keys label and score (with dict.get defaults) and,
in the standalone flow, writes the key phrase.  Fields the code never touches
are not represented. -/
structure PredEntry where
  label : Option String
  score : Option ℚ
  phrase : Option String
deriving Repr, DecidableEq

/-- A provider response as received by predictor.predict: either a JSON list
of entries, or some other value (the code only checks isinstance list). -/
inductive Response where
  | list (entries : List PredEntry)
  | other (raw : String)
deriving Repr, DecidableEq

/-- A predict oracle: what predictor.predict does on a given input text.
Except models a raised exception carrying its message. -/
def PredictFn : Type := String → Except String Response

/-! ### The in-deployment test flow: test_endpoint in src/finbert.py -/

/-- Outcome of one iteration of the loop in test_endpoint: either a parsed
sentiment line, the raw-result fallback line, or the caught-error line. -/
inductive TestOutcome where
  | sentiment (text : String) (label : String) (score : ℚ)
  | raw (text : String) (resp : Response)
  | error (text : String) (msg : String)
deriving Repr, DecidableEq

/-- One iteration of the for loop in test_endpoint (src/finbert.py lines
137-154): call predict inside try; on success, if the result is a list with
len greater than 0 take result[0] and read label and score with dict.get
defaults Unknown and 0.0; otherwise print the raw result; a raised exception
is caught and reported for this text only. -/
def testItem (predict : PredictFn) (text : String) : TestOutcome :=
  match predict text with
  | .error e => .error text e
  | .ok result =>
    match result with
    | .list (prediction :: _) =>
        .sentiment text (prediction.label.getD "Unknown") (prediction.score.getD 0)
    | _ => .raw text result

/-- The fixed sample list test_texts in test_endpoint. -/
def test_texts : List String :=
  [ "The company's quarterly earnings exceeded expectations significantly.",
    "Market volatility increased due to economic uncertainty.",
    "Strong revenue growth driven by innovative product launches.",
    "Major layoffs announced affecting 15% of workforce.",
    "Stock price surged after positive analyst upgrade." ]

/-- The whole test_endpoint loop: every text is processed, each through
testItem; nothing raised inside an iteration escapes the loop. -/
def test_endpoint (predict : PredictFn) : List TestOutcome :=
  test_texts.map (testItem predict)

/-- The test_endpoint loop run on an arbitrary text list, used to reason
about batches other than the fixed sample list. -/
def testLoop (predict : PredictFn) (texts : List String) : List TestOutcome :=
  texts.map (testItem predict)

/-! ### The standalone invocation flow: module level of src/finbert-invoke.py -/

/-- The statement result[0]["phrase"] = phrase in src/finbert-invoke.py.
If the response is a non-empty list the phrase key is set on its first
entry; indexing an empty list raises IndexError, and indexing a non-list
value (then assigning to a key) raises. -/
def setFirstPhrase (result : Response) (phrase : String) : Except String Response :=
  match result with
  | .list (p :: rest) => .ok (.list ({ p with phrase := some phrase } :: rest))
  | .list [] => .error "IndexError: list index out of range"
  | .other _ => .error "TypeError: indexing a non-list response"

/-- The module-level prediction loop of src/finbert-invoke.py (lines 14-26):
for each phrase call predict with no try block, set phrase on the first
entry, append to outputs.  An exception aborts the loop: the pair returned
is the outputs accumulated before the raise and the uncaught exception, if
any. -/
def invokeLoop (predict : PredictFn) : List String → List Response × Option String
  | [] => ([], none)
  | phrase :: rest =>
    match predict phrase with
    | .error e => ([], some e)
    | .ok result =>
      match setFirstPhrase result phrase with
      | .error e => ([], some e)
      | .ok result' =>
        let (tail, err) := invokeLoop predict rest
        (result' :: tail, err)

/-- The fixed input list of src/finbert-invoke.py. -/
def invokeInputs : List String :=
  [ "Hyperfine spiked 30% in the past day due to a new software release",
    "GE stock price droped 20% last quarter due to waining demand for appliances",
    "Linkedin subscriptions up 30%" ]

/-- Phrase recorded on the first entry of a response, as read back by the
print loop of src/finbert-invoke.py via pred[0]["phrase"]. -/
def firstPhrase (r : Response) : Option String :=
  match r with
  | .list (p :: _) => p.phrase
  | _ => none

/-! ### The role provisioner: create_sagemaker_execution_role in src/finbert.py

The IAM service is modelled as a store mapping role names to ARNs plus a set
of attached (role, policy) pairs.  create_role on an existing name raises
EntityAlreadyExistsException (caught by the code); on a fresh name it stores
and returns an ARN determined by the name.  attach_role_policy outcomes other
than plain success (LimitExceededException, any other exception) depend on
provider-side limits the code does not control, so they are an oracle
parameter. -/

/-- IAM service state: existing roles (name to ARN) and attached policies. -/
structure IamState where
  roles : List (String × String)
  attached : List (String × String)
deriving Repr, DecidableEq

/-- ARN the IAM service assigns to a newly created role, deterministic in the
role name. -/
def mkRoleArn (name : String) : String :=
  "arn:aws:iam::000000000000:role/" ++ name

/-- Lookup of a role ARN by name in the IAM state, the behaviour common to
get_role and to the existence check inside create_role. -/
def lookupRole (st : IamState) (name : String) : Option String :=
  (st.roles.find? (fun p => p.1 == name)).map Prod.snd

/-- Outcome of one attach_role_policy call, as the except clauses of the
source distinguish them: success, LimitExceededException (printed as policy
already attached), or any other exception with its message. -/
inductive AttachOutcome where
  | ok
  | limitExceeded
  | otherError (msg : String)
deriving Repr, DecidableEq

/-- An attach oracle: what attach_role_policy does for a given policy ARN. -/
def AttachFn : Type := String → AttachOutcome

/-- The role name constant in create_sagemaker_execution_role. -/
def role_name : String := "SageMakerExecutionRole"

/-- The required_policies list in create_sagemaker_execution_role. -/
def required_policies : List String :=
  [ "arn:aws:iam::aws:policy/AmazonSageMakerFullAccess",
    "arn:aws:iam::aws:policy/AmazonS3FullAccess",
    "arn:aws:iam::aws:policy/AmazonEC2ContainerRegistryReadOnly" ]

/-- Observable record of one run of create_sagemaker_execution_role: the
returned ARN, whether the create branch ran (versus the caught
EntityAlreadyExistsException branch), the seconds passed to time.sleep,
the policy ARNs for which attachment was attempted, and the warning lines
printed by the generic except clause of the attach loop. -/
structure EnsureRoleRun where
  role_arn : String
  createdNew : Bool
  sleptSeconds : Nat
  attachAttempts : List String
  warnings : List String
deriving Repr, DecidableEq

/-- The for loop over required_policies in create_sagemaker_execution_role:
each policy is attempted; success records the attachment in the state;
LimitExceededException prints policy already attached and continues; any
other exception prints a warning and continues. -/
def attachLoop (attach : AttachFn) (st : IamState) :
    List String → IamState × List String × List String
  | [] => (st, [], [])
  | policy_arn :: rest =>
    match attach policy_arn with
    | .ok =>
        let st' := { st with attached := (role_name, policy_arn) :: st.attached }
        let (stf, attempts, warns) := attachLoop attach st' rest
        (stf, policy_arn :: attempts, warns)
    | .limitExceeded =>
        let (stf, attempts, warns) := attachLoop attach st rest
        (stf, policy_arn :: attempts, warns)
    | .otherError e =>
        let (stf, attempts, warns) := attachLoop attach st rest
        (stf, policy_arn :: attempts,
          ("Warning: Could not attach policy " ++ policy_arn ++ ": " ++ e) :: warns)

/-- The function create_sagemaker_execution_role (src/finbert.py lines 7-72):
try create_role with the fixed name and trust policy, then sleep 10 seconds;
on EntityAlreadyExistsException, get_role and reuse the existing ARN with no
sleep; then attach each required policy, tolerating failures; return the ARN.
-/
def create_sagemaker_execution_role (attach : AttachFn) (st : IamState) :
    IamState × EnsureRoleRun :=
  let (st1, role_arn, createdNew, slept) :=
    match lookupRole st role_name with
    | some arn => (st, arn, false, 0)
    | none =>
        let arn := mkRoleArn role_name
        ({ st with roles := (role_name, arn) :: st.roles }, arn, true, 10)
  let (st2, attempts, warns) := attachLoop attach st1 required_policies
  (st2, ⟨role_arn, createdNew, slept, attempts, warns⟩)

/-! ### The model deployer: deploy_huggingface_model in src/finbert.py -/

/-- The predictor object returned by huggingface_model.deploy, as the code
uses it: it carries the endpoint name and a predict method. -/
structure Predictor where
  endpoint_name : String
  predict : PredictFn

/-- A deploy oracle: the behaviour of huggingface_model.deploy given the
endpoint_name argument the caller passes.  It either raises or returns the
resulting predictor; when the argument is none the provider generates the
endpoint name itself. -/
def DeployFn : Type := Option String → Except String Predictor

/-- The function deploy_huggingface_model (src/finbert.py lines 74-116):
build the model from the fixed hub configuration and the given role ARN,
then call deploy with initial_instance_count 1, instance_type ml.inf2.xlarge
and endpoint_name None, with no try block around it, and return the
predictor. -/
def deploy_huggingface_model (deployCall : DeployFn) (_role_arn : String) :
    Except String Predictor :=
  deployCall none

/-! ### The orchestrator: main in src/finbert.py -/

/-- Result of main as far as the claims observe it: the IAM state after the
run, and either the predictor with the test outcomes, or the exception main
re-raises after printing the deployment-failed message. -/
def main (attach : AttachFn) (deployCall : DeployFn) (st : IamState) :
    IamState × Except String (Predictor × List TestOutcome) :=
  let (st1, run) := create_sagemaker_execution_role attach st
  match deploy_huggingface_model deployCall run.role_arn with
  | .error e => (st1, .error e)
  | .ok predictor =>
      let outcomes := test_endpoint predictor.predict
      (st1, .ok (predictor, outcomes))

/-! ### Helper lemmas about the role provisioner -/

/-- The attach loop never touches the role store, only the attachment set. -/
lemma attachLoop_roles (attach : AttachFn) (ps : List String) (st : IamState) :
    (attachLoop attach st ps).1.roles = st.roles := by
  induction ps generalizing st with
  | nil => rfl
  | cons p rest ih =>
    unfold attachLoop
    cases attach p <;> simp [ih]

/-- The attach loop attempts every policy it is given, in order, whatever
the outcomes are. -/
lemma attachLoop_attempts (attach : AttachFn) (ps : List String) (st : IamState) :
    (attachLoop attach st ps).2.1 = ps := by
  induction ps generalizing st with
  | nil => rfl
  | cons p rest ih =>
    unfold attachLoop
    cases attach p <;> simp [ih]

/-- Warnings produced by the attach loop: exactly one per policy whose
attachment raised something other than LimitExceededException. -/
lemma attachLoop_warnings (attach : AttachFn) (ps : List String) (st : IamState) :
    (attachLoop attach st ps).2.2 = ps.filterMap (fun pa =>
      match attach pa with
      | .otherError e => some ("Warning: Could not attach policy " ++ pa ++ ": " ++ e)
      | _ => none) := by
  induction ps generalizing st with
  | nil => rfl
  | cons p rest ih =>
    unfold attachLoop
    cases h : attach p <;> simp [ih, h]

/-- Looking a role up only depends on the role store. -/
lemma lookupRole_congr {st st' : IamState} (h : st.roles = st'.roles) (n : String) :
    lookupRole st n = lookupRole st' n := by
  simp [lookupRole, h]

/-- After a run of create_sagemaker_execution_role, the fixed role name
resolves to exactly the ARN the run returned. -/
lemma ensure_role_lookup (attach : AttachFn) (st : IamState) :
    lookupRole (create_sagemaker_execution_role attach st).1 role_name
      = some (create_sagemaker_execution_role attach st).2.role_arn := by
  unfold create_sagemaker_execution_role
  cases h : lookupRole st role_name with
  | some arn =>
      simp only [h]
      rw [lookupRole_congr (attachLoop_roles attach required_policies st)]
      exact h
  | none =>
      simp only [h]
      rw [lookupRole_congr
        (attachLoop_roles attach required_policies
          { st with roles := (role_name, mkRoleArn role_name) :: st.roles })]
      simp [lookupRole, List.find?]

/-- The ARN create_sagemaker_execution_role returns, in closed form: the
stored ARN when the role exists, a fresh one when it does not. -/
lemma ensure_role_arn (attach : AttachFn) (st : IamState) :
    (create_sagemaker_execution_role attach st).2.role_arn
      = (lookupRole st role_name).getD (mkRoleArn role_name) := by
  unfold create_sagemaker_execution_role
  cases h : lookupRole st role_name <;> simp [h]

/-! ### Claims about the role provisioner -/

/-- C2: running the role ensure-step twice with the same (fixed) role name
yields the same role ARN both times, and the second run takes the caught
already-exists branch rather than raising a duplicate-creation error, for
any attach oracles and any starting IAM state. -/
theorem ensure_role_idempotent (attach1 attach2 : AttachFn) (st : IamState) :
    (create_sagemaker_execution_role attach2
        (create_sagemaker_execution_role attach1 st).1).2.role_arn
      = (create_sagemaker_execution_role attach1 st).2.role_arn ∧
    (create_sagemaker_execution_role attach2
        (create_sagemaker_execution_role attach1 st).1).2.createdNew = false := by
  have hlook := ensure_role_lookup attach1 st
  constructor
  · rw [ensure_role_arn attach2, hlook]
    rfl
  · generalize hst : (create_sagemaker_execution_role attach1 st).1 = st1 at hlook
    unfold create_sagemaker_execution_role
    simp [hlook]

/-- C4: the ensure-role step attempts attachment of every required policy,
the returned role ARN does not depend on attachment outcomes at all, the
LimitExceededException (already-attached) branch produces no warning, and
any other attachment failure produces a warning while later policies are
still processed. -/
theorem attach_failures_nonfatal (attach1 attach2 : AttachFn) (st : IamState) :
    (create_sagemaker_execution_role attach1 st).2.attachAttempts = required_policies ∧
    (create_sagemaker_execution_role attach1 st).2.role_arn
      = (create_sagemaker_execution_role attach2 st).2.role_arn ∧
    (create_sagemaker_execution_role attach1 st).2.warnings
      = required_policies.filterMap (fun pa =>
          match attach1 pa with
          | .otherError e => some ("Warning: Could not attach policy " ++ pa ++ ": " ++ e)
          | _ => none) := by
  refine ⟨?_, ?_, ?_⟩
  · unfold create_sagemaker_execution_role
    cases h : lookupRole st role_name <;> simp [h, attachLoop_attempts]
  · rw [ensure_role_arn attach1, ensure_role_arn attach2]
  · unfold create_sagemaker_execution_role
    cases h : lookupRole st role_name <;> simp [h, attachLoop_warnings]

/-- C7: the fixed 10 second grace period is slept exactly when the role was
newly created, i.e. when the role name did not resolve beforehand; when it
did resolve, the existing ARN is fetched and returned with no wait. -/
theorem grace_period_iff_created (attach : AttachFn) (st : IamState) :
    (create_sagemaker_execution_role attach st).2.createdNew
      = (lookupRole st role_name).isNone ∧
    (create_sagemaker_execution_role attach st).2.sleptSeconds
      = (if (lookupRole st role_name).isNone then 10 else 0) ∧
    (create_sagemaker_execution_role attach st).2.role_arn
      = (lookupRole st role_name).getD (mkRoleArn role_name) := by
  refine ⟨?_, ?_, ensure_role_arn attach st⟩
  · unfold create_sagemaker_execution_role
    cases h : lookupRole st role_name <;> simp [h]
  · unfold create_sagemaker_execution_role
    cases h : lookupRole st role_name <;> simp [h]

/-! ### Claims about the deployer and the orchestrator -/

/-- C6: deploy_huggingface_model passes endpoint_name None to the provider
deploy call, whatever the role ARN is (first conjunct, an equation showing
the call is exactly the provider call at the argument none), and whenever
the provider generates a name for that call, the returned predictor carries
exactly that generated endpoint name. -/
theorem deploy_uses_generated_name (deployCall : DeployFn) (role_arn : String) :
    deploy_huggingface_model deployCall role_arn = deployCall none ∧
    (∀ pred : Predictor, deployCall none = .ok pred →
      ∃ q : Predictor, deploy_huggingface_model deployCall role_arn = .ok q ∧
        q.endpoint_name = pred.endpoint_name) := by
  refine ⟨rfl, fun pred hp => ⟨pred, ?_, rfl⟩⟩
  unfold deploy_huggingface_model
  exact hp

/-- Closed witness for deploy_uses_generated_name at a concrete provider
whose deploy call returns a predictor named generated-ep-1. -/
theorem deploy_uses_generated_name_witness :
    ∃ q : Predictor,
      deploy_huggingface_model
        (fun _ => .ok ⟨"generated-ep-1", fun _ => .ok (.other "ignored")⟩)
        "arn:aws:iam::000000000000:role/SageMakerExecutionRole" = .ok q ∧
      q.endpoint_name = "generated-ep-1" :=
  (deploy_uses_generated_name
      (fun _ => .ok ⟨"generated-ep-1", fun _ => .ok (.other "ignored")⟩)
      "arn:aws:iam::000000000000:role/SageMakerExecutionRole").2
    ⟨"generated-ep-1", fun _ => .ok (.other "ignored")⟩ rfl

/-- C5: when the provider deploy call raises, main propagates exactly that
error (no local handling turns it into a success, no retry substitutes
another outcome), and the role created by the earlier step is still present
in the final IAM state: no rollback or cleanup happens. -/
theorem deploy_error_fatal (attach : AttachFn) (deployCall : DeployFn)
    (st : IamState) (e : String) (he : deployCall none = .error e) :
    (main attach deployCall st).2 = .error e ∧
    lookupRole (main attach deployCall st).1 role_name
      = some (create_sagemaker_execution_role attach st).2.role_arn := by
  unfold main deploy_huggingface_model
  rw [he]
  exact ⟨rfl, ensure_role_lookup attach st⟩

/-- Closed witness for deploy_error_fatal: a provider whose deploy raises a
quota error, run from an empty IAM state with an attach oracle that always
succeeds. -/
theorem deploy_error_fatal_witness :
    (main (fun _ => .ok) (fun _ => .error "ResourceLimitExceeded") ⟨[], []⟩).2
        = .error "ResourceLimitExceeded" ∧
    lookupRole (main (fun _ => .ok) (fun _ => .error "ResourceLimitExceeded") ⟨[], []⟩).1
        role_name
      = some (create_sagemaker_execution_role (fun _ => .ok) ⟨[], []⟩).2.role_arn :=
  deploy_error_fatal (fun _ => .ok) (fun _ => .error "ResourceLimitExceeded")
    ⟨[], []⟩ "ResourceLimitExceeded" rfl

/-! ### Claims about the invoker -/

/-- C3: whenever the provider response is a non-empty list of label/score
entries, the in-deployment test flow takes the first entry as the result,
pairing the input text with that entry in a sentiment outcome. -/
theorem first_entry_taken (predict : PredictFn) (text label : String) (score : ℚ)
    (p : PredEntry) (ps : List PredEntry)
    (hp : predict text = .ok (.list (p :: ps)))
    (hl : p.label = some label) (hs : p.score = some score) :
    testItem predict text = .sentiment text label score := by
  unfold testItem
  rw [hp]
  simp [hl, hs]

/-- Closed witness for first_entry_taken at the canned provider response
with label positive and score 0.87 on the sample text about a stock price
surge: the invoker produces exactly that prediction result. -/
theorem first_entry_taken_witness :
    testItem (fun _ => .ok (.list [⟨some "positive", some (87/100), none⟩]))
        "Stock price surged after positive analyst upgrade."
      = .sentiment "Stock price surged after positive analyst upgrade."
          "positive" (87/100) :=
  first_entry_taken
    (fun _ => .ok (.list [⟨some "positive", some (87/100), none⟩]))
    "Stock price surged after positive analyst upgrade." "positive" (87/100)
    ⟨some "positive", some (87/100), none⟩ [] rfl rfl rfl

/-- C8: when the provider response is not a list, or is an empty list, the
test flow performs no first-element extraction and reports the raw response
instead. -/
theorem no_unguarded_indexing (predict : PredictFn) (text : String) (r : Response)
    (hp : predict text = .ok r)
    (hr : r = .list [] ∨ ∃ s, r = .other s) :
    testItem predict text = .raw text r := by
  unfold testItem
  rw [hp]
  rcases hr with h | ⟨s, h⟩ <;> subst h <;> rfl

/-- Closed witness for no_unguarded_indexing at an empty-list response. -/
theorem no_unguarded_indexing_witness :
    testItem (fun _ => .ok (.list [])) "Market volatility increased."
      = .raw "Market volatility increased." (.list []) :=
  no_unguarded_indexing (fun _ => .ok (.list [])) "Market volatility increased."
    (.list []) rfl (Or.inl rfl)

/-- C9: a first prediction entry missing the label key or the score key does
not raise in the test flow: a missing label defaults to the string Unknown
and a missing score defaults to 0.0. -/
theorem missing_keys_default (predict : PredictFn) (text : String)
    (p : PredEntry) (ps : List PredEntry)
    (hp : predict text = .ok (.list (p :: ps))) :
    (p.label = none →
      testItem predict text = .sentiment text "Unknown" (p.score.getD 0)) ∧
    (p.score = none →
      testItem predict text = .sentiment text (p.label.getD "Unknown") 0) := by
  constructor
  · intro hl
    unfold testItem
    rw [hp]
    simp [hl]
  · intro hs
    unfold testItem
    rw [hp]
    simp [hs]

/-- Closed witness for missing_keys_default at an entry with both keys
absent: the outcome is the label Unknown with score 0. -/
theorem missing_keys_default_witness :
    testItem (fun _ => .ok (.list [⟨none, none, none⟩])) "Major layoffs announced."
      = .sentiment "Major layoffs announced." "Unknown" 0 :=
  (missing_keys_default (fun _ => .ok (.list [⟨none, none, none⟩]))
      "Major layoffs announced." ⟨none, none, none⟩ [] rfl).1 rfl

/-- C10: in the standalone flow, when every prediction succeeds with a
non-empty list response, no error is raised, and the collected outputs line
up with the inputs in order: reading the phrase key back from the first
entry of each output yields exactly the input list (so each output is
tagged with the input text that produced it, and lengths agree). -/
theorem invoke_order_and_tagging (predict : PredictFn) (inputs : List String)
    (h : ∀ x ∈ inputs, ∃ p ps, predict x = .ok (.list (p :: ps))) :
    (invokeLoop predict inputs).2 = none ∧
    (invokeLoop predict inputs).1.map firstPhrase = inputs.map some := by
  induction inputs with
  | nil => exact ⟨rfl, rfl⟩
  | cons phrase rest ih =>
    obtain ⟨p, ps, hp⟩ := h phrase (List.mem_cons_self phrase rest)
    have ihrest := ih (fun x hx => h x (List.mem_cons_of_mem phrase hx))
    unfold invokeLoop
    rw [hp]
    simp only [setFirstPhrase]
    constructor
    · simpa using ihrest.1
    · simpa [firstPhrase] using ihrest.2

/-- Closed witness for invoke_order_and_tagging at the fixed input list of
src/finbert-invoke.py and a provider that always answers with a singleton
list entry. -/
theorem invoke_order_and_tagging_witness :
    (invokeLoop (fun _ => .ok (.list [⟨some "neutral", some (1/2), none⟩]))
        invokeInputs).2 = none ∧
    (invokeLoop (fun _ => .ok (.list [⟨some "neutral", some (1/2), none⟩]))
        invokeInputs).1.map firstPhrase = invokeInputs.map some :=
  invoke_order_and_tagging (fun _ => .ok (.list [⟨some "neutral", some (1/2), none⟩]))
    invokeInputs
    (fun _ _ => ⟨⟨some "neutral", some (1/2), none⟩, [], rfl⟩)

/-! ### Claim on invocation-error isolation -/

/-- A concrete predict oracle for a batch of three inputs whose second
invocation raises a provider error; the other two succeed with a singleton
list response. -/
def failSecond : PredictFn := fun t =>
  if t = "in2" then .error "provider error"
  else .ok (.list [⟨some "positive", some (9/10), none⟩])

/-- C1 counterexample: in the standalone invocation flow, for a batch of 3
inputs whose 2nd invocation raises a provider error, the loop does not
return results for inputs 1 and 3: it aborts at input 2 with the error
uncaught, keeping only the result for input 1 and producing none for input
3, so the collected outputs number 1, not the 2 the claim requires. -/
theorem standalone_not_isolated :
    invokeLoop failSecond ["in1", "in2", "in3"]
      = ([Response.list [⟨some "positive", some (9/10), some "in1"⟩]],
         some "provider error") ∧
    (invokeLoop failSecond ["in1", "in2", "in3"]).1.length ≠ 2 := by
  constructor
  · rfl
  · decide

/-- C1 amended: invocation errors are isolated per input in the
in-deployment test flow only: there, for a batch of 3 inputs whose 2nd
invocation raises, outcomes are still produced for inputs 1 and 3 and a
recorded failure for input 2.  In the standalone invocation flow an
invocation error is uncaught and aborts the batch: only results for inputs
before the failing one are kept and none is produced for later inputs. -/
theorem invoke_error_isolation_amended (predict : PredictFn) (a b c e : String)
    (pa pc : PredEntry) (la lc : List PredEntry)
    (ha : predict a = .ok (.list (pa :: la)))
    (hb : predict b = .error e)
    (hc : predict c = .ok (.list (pc :: lc))) :
    testLoop predict [a, b, c] =
      [ .sentiment a (pa.label.getD "Unknown") (pa.score.getD 0),
        .error b e,
        .sentiment c (pc.label.getD "Unknown") (pc.score.getD 0) ] ∧
    invokeLoop predict [a, b, c] =
      ([Response.list ({ pa with phrase := some a } :: la)], some e) := by
  constructor
  · simp [testLoop, testItem, ha, hb, hc]
  · simp [invokeLoop, setFirstPhrase, ha, hb]

/-- Closed witness for invoke_error_isolation_amended at the concrete
three-input batch whose second invocation fails. -/
theorem invoke_error_isolation_amended_witness :
    testLoop failSecond ["in1", "in2", "in3"] =
      [ .sentiment "in1" "positive" (9/10),
        .error "in2" "provider error",
        .sentiment "in3" "positive" (9/10) ] ∧
    invokeLoop failSecond ["in1", "in2", "in3"] =
      ([Response.list [⟨some "positive", some (9/10), some "in1"⟩]],
       some "provider error") :=
  invoke_error_isolation_amended failSecond "in1" "in2" "in3" "provider error"
    ⟨some "positive", some (9/10), none⟩ ⟨some "positive", some (9/10), none⟩
    [] [] rfl rfl rfl

end FinbertSM
